import Mathlib

/-!
Verification of the invoice generator core (`src/generator/invoices.py`).

The embedding models the two core components named by the spec — the
validator (`validate_invoice_data`) and the totals calculator
(`compute_totals`) — plus the standalone currency formatter (`moneyfmt`)
and the arithmetic part of the entry point (`generate_invoice`).

Modelling conventions:
* Python `Decimal` values are exact rationals (`ℚ`); `Decimal`
  arithmetic on invoice-scale data is exact, and all rounding in the
  source goes through `quantize(Decimal('0.01'), rounding=ROUND_HALF_UP)`,
  modelled by `quantize2`.
* A heterogeneous Python value is a `Value`: `.num q` stands for any
  value (int, float, Decimal, numeric string) whose decimal
  interpretation (`Decimal(str(v))` in the source) is exactly the
  rational `q`; `.text s` is a string that is not a decimal literal
  (so `Decimal(str(v))` raises); `.pynone` is Python `None`;
  `.record` is a dict or other non-numeric object.
* A dict key that may be absent is an `Option`; `none` is "key absent".
* A raised exception is an `Except.error`; the abstract error names of
  the spec (`MissingFieldError`, `TypeMismatchError`,
  `NonNumericAmountError`, `InvalidAmountError`) are the constructors of
  `InvoiceError`.
* In-place mutation is modelled by returning the mutated data: the
  validator returns the (possibly normalized) record together with the
  raised error, and the totals calculator returns the mutated item list
  alongside the three aggregates.
-/

namespace InvoiceGen

/-- A Python runtime value, classified by how `Decimal(str(v))` treats it. -/
inductive Value where
  | num (q : ℚ)
  | text (s : String)
  | pynone
  | record
deriving DecidableEq

/-- Interpretation of a value as a decimal number: `Decimal(str(v))` in the
source succeeds exactly on `.num` values and yields their rational value. -/
def parseDecimal : Value → Option ℚ
  | Value.num q => some q
  | _ => none

/-- One line-item dict.  `line_total` models the derived `_line_total` key
attached by `compute_totals` (absent on input). -/
structure LineItem where
  description : Option Value
  qty : Option Value
  unit_price : Option Value
  line_total : Option ℚ
deriving DecidableEq

/-- The value stored under the `items` key: a Python list of item dicts, a
tuple of item dicts, or some non-sequence object (e.g. a single dict). -/
inductive ItemsValue where
  | pylist (xs : List LineItem)
  | pytuple (xs : List LineItem)
  | other
deriving DecidableEq

/-- The check the source performs: `isinstance(data['items'], list)`. -/
def ItemsValue.isList : ItemsValue → Bool
  | ItemsValue.pylist _ => true
  | _ => false

/-- Modelled from the spec's words ("a sequence type"): Python lists and
tuples are sequence types, a plain dict is not.  Used only to compare the
spec's `items`-check with the source's `isinstance(..., list)` check. -/
def ItemsValue.isSequence : ItemsValue → Bool
  | ItemsValue.pylist _ => true
  | ItemsValue.pytuple _ => true
  | ItemsValue.other => false

/-- The top-level invoice record.  Every field is an optional dict entry. -/
structure InvoiceRecord where
  invoice_number : Option Value
  date : Option Value
  bill_to : Option Value
  items : Option ItemsValue
  tax_rate : Option Value
  due_date : Option Value
  notes : Option Value
deriving DecidableEq

/-- The typed errors of the design (spec §7).  In the source,
`missingField` and `typeMismatch` are the `ValueError`s raised by
`validate_invoice_data`, `nonNumericAmount` is the decimal parse failure
propagating out of `compute_totals`, and `invalidAmount` is the
`ValueError("Amount must be numeric")` raised by `moneyfmt`. -/
inductive InvoiceError where
  | missingField (field : String)
  | typeMismatch
  | nonNumericAmount
  | invalidAmount
deriving DecidableEq

/-- Round a rational to the nearest integer, ties away from zero — the
integer core of `ROUND_HALF_UP`. -/
def roundHalfUpInt (x : ℚ) : ℤ :=
  if 0 ≤ x then ⌊x + 1/2⌋ else -⌊-x + 1/2⌋

/-- `Decimal.quantize(Decimal('0.01'), rounding=ROUND_HALF_UP)`: round
half-up to two decimal places. -/
def quantize2 (x : ℚ) : ℚ :=
  (roundHalfUpInt (100 * x) : ℚ) / 100

/-- The quantity of an item as `compute_totals` reads it:
`Decimal(str(it.get('qty', 0)))`. -/
def qtyVal (it : LineItem) : Option ℚ :=
  parseDecimal (it.qty.getD (Value.num 0))

/-- The unit price of an item as `compute_totals` reads it:
`Decimal(str(it.get('unit_price', '0.00')))`. -/
def unitVal (it : LineItem) : Option ℚ :=
  parseDecimal (it.unit_price.getD (Value.num 0))

/-- The loop body of `compute_totals`: walk the items in order, attach
`_line_total` to each, and accumulate the running subtotal; the first
non-parsing `qty`/`unit_price` aborts with `nonNumericAmount`. -/
def computeItems : List LineItem → Except InvoiceError (List LineItem × ℚ)
  | [] => Except.ok ([], 0)
  | it :: rest =>
    match qtyVal it, unitVal it with
    | some q, some u =>
      match computeItems rest with
      | Except.ok (rest2, s) =>
        Except.ok ({ it with line_total := some (quantize2 (q * u)) } :: rest2,
          quantize2 (q * u) + s)
      | Except.error e => Except.error e
    | _, _ => Except.error InvoiceError.nonNumericAmount

/-- `compute_totals(items, tax_rate)`: returns the mutated items together
with `(subtotal, tax, total)`.  `tax_rate` is the (numeric) tax rate; in
every caller it is a Python float, whose `Decimal(str(...))` value is the
exact rational `tax_rate`. -/
def compute_totals (items : List LineItem) (tax_rate : ℚ) :
    Except InvoiceError (List LineItem × ℚ × ℚ × ℚ) :=
  match computeItems items with
  | Except.error e => Except.error e
  | Except.ok (items2, s) =>
    let subtotal := quantize2 s
    let tax := quantize2 (subtotal * tax_rate)
    let total := quantize2 (subtotal + tax)
    Except.ok (items2, subtotal, tax, total)

/-- Closed form of the line total `compute_totals` attaches to an item
whose amounts parse: `round(qty * unitPrice, 2, half-up)`. -/
def lineTotalSpec (it : LineItem) : ℚ :=
  quantize2 ((qtyVal it).getD 0 * (unitVal it).getD 0)

/-- Closed form of the mutation `compute_totals` performs on one item. -/
def attachLine (it : LineItem) : LineItem :=
  { it with line_total := some (lineTotalSpec it) }

/-- Closed form of the subtotal: per-item-rounded line totals, summed,
then rounded. -/
def subtotalSpec (items : List LineItem) : ℚ :=
  quantize2 ((items.map lineTotalSpec).sum)

/-- Closed form of the tax: `round(subtotal * taxRate, 2, half-up)`. -/
def taxSpec (items : List LineItem) (tax_rate : ℚ) : ℚ :=
  quantize2 (subtotalSpec items * tax_rate)

/-- Closed form of the grand total: `round(subtotal + tax, 2, half-up)`. -/
def totalSpec (items : List LineItem) (tax_rate : ℚ) : ℚ :=
  quantize2 (subtotalSpec items + taxSpec items tax_rate)

/-- The required top-level keys, in the fixed order the source checks
them, each paired with its presence test (`k not in data`). -/
def requiredFields : List (String × (InvoiceRecord → Bool)) :=
  [("invoice_number", fun d => d.invoice_number.isSome),
   ("date", fun d => d.date.isSome),
   ("bill_to", fun d => d.bill_to.isSome),
   ("items", fun d => d.items.isSome)]

/-- The first required key absent from the record, in check order. -/
def firstMissing (d : InvoiceRecord) : Option String :=
  (requiredFields.find? (fun p => !(p.2 d))).map (fun p => p.1)

/-- The normalization block of `validate_invoice_data`: the three
`setdefault` calls.  A `setdefault` inserts the default only when the key
is absent. -/
def applyDefaults (d : InvoiceRecord) : InvoiceRecord :=
  { d with
    tax_rate := some (d.tax_rate.getD (Value.num 0)),
    due_date := some (d.due_date.getD Value.pynone),
    notes := some (d.notes.getD (Value.text "")) }

/-- `validate_invoice_data(data)`: returns the record as it stands when
the function finishes (mutated in place in the source) together with the
raised error, if any.  All checks precede all normalization, as in the
source. -/
def validate_invoice_data (d : InvoiceRecord) :
    InvoiceRecord × Option InvoiceError :=
  match firstMissing d with
  | some k => (d, some (InvoiceError.missingField k))
  | none =>
    if (d.items.getD ItemsValue.other).isList then (applyDefaults d, none)
    else (d, some InvoiceError.typeMismatch)

/-- Insert a thousands separator every three digits, counting from the
right; the input is the digit list reversed. -/
def group3 (l : List Char) : List Char :=
  if _h : l.length ≤ 3 then l
  else l.take 3 ++ ',' :: group3 (l.drop 3)
termination_by l.length
decreasing_by simp [List.length_drop]; omega

/-- Grouped decimal rendering of a natural number, as in `f"{n:,}"`. -/
def digitsGrouped (n : ℕ) : String :=
  String.mk ((group3 (toString n).data.reverse).reverse)

/-- Two-digit rendering of a fraction-of-a-dollar value below 100. -/
def twoDigits (n : ℕ) : String :=
  if n < 10 then "0" ++ toString n else toString n

/-- The fallback currency format of `moneyfmt`, `f"${amt:,}"`, applied to
an amount of `cents` hundredths: the locale-aware first tier is
environment-dependent cosmetics (spec §7 treats it as best-effort and
value-irrelevant), so the model renders the guaranteed fallback. -/
def dollarFormat (cents : ℤ) : String :=
  "$" ++ (if cents < 0 then "-" else "") ++
    digitsGrouped (cents.natAbs / 100) ++ "." ++ twoDigits (cents.natAbs % 100)

/-- `moneyfmt(amount)`: quantize half-up to two decimals and format;
a non-numeric amount raises (`ValueError("Amount must be numeric")`). -/
def moneyfmt (amount : Value) : Except InvoiceError String :=
  match parseDecimal amount with
  | none => Except.error InvoiceError.invalidAmount
  | some q => Except.ok (dollarFormat (roundHalfUpInt (100 * q)))

/-- The renderer's per-item line-total selection inside
`generate_invoice`: use the cached `_line_total` when present, otherwise
recompute the raw (unrounded) product `Decimal(str(qty)) *
Decimal(str(unit))` with both defaults `0`. -/
def renderLineTotal (it : LineItem) : Option ℚ :=
  match it.line_total with
  | some lt => some lt
  | none =>
    match parseDecimal (it.qty.getD (Value.num 0)),
        parseDecimal (it.unit_price.getD (Value.num 0)) with
    | some q, some u => some (q * u)
    | _, _ => none

/-- The arithmetic pipeline of `generate_invoice(invoice_data, filename)`:
validate, read `items` and `tax_rate` from the normalized record, and
compute totals.  Document layout and the artifact write are out of scope
(spec §1).  The `typeMismatch` arm for a non-list `items` is unreachable
after a successful validation. -/
def generate_invoice (r : InvoiceRecord) :
    Except InvoiceError (List LineItem × ℚ × ℚ × ℚ) :=
  match validate_invoice_data r with
  | (_, some e) => Except.error e
  | (r2, none) =>
    match r2.items.getD ItemsValue.other with
    | ItemsValue.pylist items =>
      match parseDecimal (r2.tax_rate.getD (Value.num 0)) with
      | some tr => compute_totals items tr
      | none => Except.error InvoiceError.nonNumericAmount
    | _ => Except.error InvoiceError.typeMismatch

/-! Helper lemmas about the rounding primitive. -/

lemma roundHalfUpInt_intCast (n : ℤ) : roundHalfUpInt (n : ℚ) = n := by
  unfold roundHalfUpInt
  by_cases h : (0 : ℚ) ≤ (n : ℚ)
  · rw [if_pos h, Int.floor_int_add]
    norm_num
  · rw [if_neg h, show (-(n : ℚ) + 1/2) = ((-n : ℤ) : ℚ) + (1/2 : ℚ) by push_cast; ring,
      Int.floor_int_add]
    norm_num

lemma quantize2_cents (n : ℤ) : quantize2 ((n : ℚ) / 100) = (n : ℚ) / 100 := by
  unfold quantize2
  rw [show (100 : ℚ) * ((n : ℚ) / 100) = (n : ℚ) by ring, roundHalfUpInt_intCast]

lemma quantize2_exists_cents (x : ℚ) : ∃ n : ℤ, quantize2 x = (n : ℚ) / 100 :=
  ⟨roundHalfUpInt (100 * x), rfl⟩

lemma quantize2_add_quantize2 (x y : ℚ) :
    quantize2 (quantize2 x + quantize2 y) = quantize2 x + quantize2 y := by
  obtain ⟨a, ha⟩ := quantize2_exists_cents x
  obtain ⟨b, hb⟩ := quantize2_exists_cents y
  rw [ha, hb, div_add_div_same, ← Int.cast_add, quantize2_cents]

lemma quantize2_eq_of_nonneg (x : ℚ) (n : ℤ) (hx : 0 ≤ 100 * x)
    (h1 : (n : ℚ) ≤ 100 * x + 1/2) (h2 : 100 * x + 1/2 < (n : ℚ) + 1) :
    quantize2 x = (n : ℚ) / 100 := by
  unfold quantize2 roundHalfUpInt
  rw [if_pos hx, Int.floor_eq_iff.mpr ⟨h1, h2⟩]

lemma quantize2_eq_of_neg (x : ℚ) (n : ℤ) (hx : ¬ 0 ≤ 100 * x)
    (h1 : (n : ℚ) ≤ -(100 * x) + 1/2) (h2 : -(100 * x) + 1/2 < (n : ℚ) + 1) :
    quantize2 x = -((n : ℚ) / 100) := by
  unfold quantize2 roundHalfUpInt
  rw [if_neg hx, Int.floor_eq_iff.mpr ⟨h1, h2⟩]
  push_cast
  ring

lemma quantize2_zero : quantize2 0 = 0 := by
  have h := quantize2_cents 0
  simpa using h

/-! Helper lemmas about the totals calculator. -/

lemma computeItems_ok_of_parses (items : List LineItem)
    (h : ∀ it ∈ items, (qtyVal it).isSome ∧ (unitVal it).isSome) :
    computeItems items =
      Except.ok (items.map attachLine, (items.map lineTotalSpec).sum) := by
  induction items with
  | nil => simp [computeItems]
  | cons it rest ih =>
    obtain ⟨q, hq⟩ := Option.isSome_iff_exists.mp (h it (List.mem_cons_self it rest)).1
    obtain ⟨u, hu⟩ := Option.isSome_iff_exists.mp (h it (List.mem_cons_self it rest)).2
    have hrest := ih (fun it2 h2 => h it2 (List.mem_cons_of_mem it h2))
    have hline : lineTotalSpec it = quantize2 (q * u) := by
      unfold lineTotalSpec
      rw [hq, hu]
      rfl
    simp only [computeItems, hq, hu, hrest, List.map_cons, List.sum_cons, attachLine, hline]

lemma computeItems_error_of_bad (items : List LineItem)
    (h : ∃ it ∈ items, ¬((qtyVal it).isSome ∧ (unitVal it).isSome)) :
    computeItems items = Except.error InvoiceError.nonNumericAmount := by
  induction items with
  | nil => simp at h
  | cons it rest ih =>
    rcases hq : qtyVal it with _ | q
    · simp only [computeItems, hq]
    · rcases hu : unitVal it with _ | u
      · simp only [computeItems, hu, hq]
      · have hbad : ∃ it2 ∈ rest, ¬((qtyVal it2).isSome ∧ (unitVal it2).isSome) := by
          obtain ⟨it2, hmem, hit2⟩ := h
          rcases List.mem_cons.mp hmem with heq | hmem2
          · exact absurd ⟨by rw [heq, hq]; rfl, by rw [heq, hu]; rfl⟩ hit2
          · exact ⟨it2, hmem2, hit2⟩
        simp only [computeItems, hq, hu, ih hbad]

lemma computeItems_ok_parses (items : List LineItem) (p : List LineItem × ℚ)
    (h : computeItems items = Except.ok p) :
    ∀ it ∈ items, (qtyVal it).isSome ∧ (unitVal it).isSome := by
  induction items generalizing p with
  | nil => simp
  | cons it rest ih =>
    rcases hq : qtyVal it with _ | q
    · simp only [computeItems, hq] at h
      exact Except.noConfusion h
    · rcases hu : unitVal it with _ | u
      · simp only [computeItems, hq, hu] at h
        exact Except.noConfusion h
      · rcases hr : computeItems rest with e | pr
        · simp only [computeItems, hq, hu, hr] at h
          exact Except.noConfusion h
        · intro it2 hmem
          rcases List.mem_cons.mp hmem with heq | hmem2
          · exact ⟨by rw [heq, hq]; rfl, by rw [heq, hu]; rfl⟩
          · exact ih pr hr it2 hmem2

lemma compute_totals_ok_of_parses (items : List LineItem) (tax_rate : ℚ)
    (h : ∀ it ∈ items, (qtyVal it).isSome ∧ (unitVal it).isSome) :
    compute_totals items tax_rate =
      Except.ok (items.map attachLine, subtotalSpec items,
        taxSpec items tax_rate, totalSpec items tax_rate) := by
  unfold compute_totals
  rw [computeItems_ok_of_parses items h]
  rfl

lemma compute_totals_ok_inv (items : List LineItem) (tax_rate : ℚ)
    (items2 : List LineItem) (s t tot : ℚ)
    (h : compute_totals items tax_rate = Except.ok (items2, s, t, tot)) :
    items2 = items.map attachLine ∧ s = subtotalSpec items ∧
      t = taxSpec items tax_rate ∧ tot = totalSpec items tax_rate := by
  have hp : ∀ it ∈ items, (qtyVal it).isSome ∧ (unitVal it).isSome := by
    unfold compute_totals at h
    rcases hc : computeItems items with e | p
    · rw [hc] at h
      exact absurd h (by simp)
    · exact computeItems_ok_parses items p hc
  rw [compute_totals_ok_of_parses items tax_rate hp] at h
  simp only [Except.ok.injEq, Prod.mk.injEq] at h
  exact ⟨h.1.symm, h.2.1.symm, h.2.2.1.symm, h.2.2.2.symm⟩

lemma line_totals_present (items : List LineItem) (tax_rate : ℚ)
    (items2 : List LineItem) (s t tot : ℚ)
    (h : compute_totals items tax_rate = Except.ok (items2, s, t, tot)) :
    ∀ it ∈ items2, it.line_total.isSome ∧ renderLineTotal it = it.line_total := by
  obtain ⟨hitems, -, -, -⟩ := compute_totals_ok_inv items tax_rate items2 s t tot h
  subst hitems
  intro it hmem
  obtain ⟨it0, -, rfl⟩ := List.mem_map.mp hmem
  exact ⟨rfl, rfl⟩

/-! Fixtures used by the witnesses (the first is the demo invoice of the
source's `__main__` block). -/

def demoItems : List LineItem :=
  [⟨some (Value.text "Black Lotus (Alpha) — Vintage"),
    some (Value.num 1), some (Value.num 125000), none⟩,
   ⟨some (Value.text "Tarmogoyf (Legacy playset) — set of 4"),
    some (Value.num 4), some (Value.num 200), none⟩,
   ⟨some (Value.text "Force of Will (Legacy) — single"),
    some (Value.num 1), some (Value.num 450), none⟩]

def w5items : List LineItem :=
  [⟨none, some (Value.num 1), some (Value.num 100), none⟩]

def badItem : LineItem :=
  ⟨none, some (Value.text "three"), some (Value.num 2), none⟩

def itemC7 : LineItem :=
  ⟨some (Value.text "tie-rounding item"), some (Value.num 3),
   some (Value.num (10005/1000)), none⟩

def w10item : LineItem :=
  ⟨some (Value.text "card"), some (Value.num 2), some (Value.num 3), none⟩

def w10items : List LineItem := [w10item]

def w10record : InvoiceRecord :=
  ⟨some (Value.text "INV-10"), some (Value.text "2025-01-02"),
   some Value.record, some (ItemsValue.pylist w10items), none, none, none⟩

/-! The claims. -/

/-- C1: for every item list whose quantities and unit prices parse as
decimals (missing `qty` defaulting to `0`, missing `unit_price` to
`'0.00'`) and every tax rate, `compute_totals` attaches to each item the
line total `round(qty * unitPrice, 2, half-up)`, and returns
`subtotal = round(sum of the pre-rounded line totals, 2, half-up)`,
`tax = round(subtotal * taxRate, 2, half-up)` and
`total = round(subtotal + tax, 2, half-up)` — per-item rounding happens
before summation. -/
theorem c1_totals_follow_spec (items : List LineItem) (tax_rate : ℚ)
    (h : ∀ it ∈ items, (qtyVal it).isSome ∧ (unitVal it).isSome) :
    compute_totals items tax_rate =
      Except.ok (items.map attachLine, subtotalSpec items,
        taxSpec items tax_rate, totalSpec items tax_rate) :=
  compute_totals_ok_of_parses items tax_rate h

/-- Witness for C1 at the demo fixture. -/
theorem c1_totals_follow_spec_witness :
    (∀ it ∈ demoItems, (qtyVal it).isSome ∧ (unitVal it).isSome) ∧
      compute_totals demoItems 0 =
        Except.ok (demoItems.map attachLine, subtotalSpec demoItems,
          taxSpec demoItems 0, totalSpec demoItems 0) :=
  ⟨by decide, c1_totals_follow_spec demoItems 0 (by decide)⟩

/-- C4: a `qty` or `unit_price` that cannot be interpreted as a decimal
number makes `compute_totals` fail with `nonNumericAmount`, and the
standalone currency formatter fails on a non-numeric amount with
`invalidAmount` instead of returning a default string. -/
theorem c4_nonnumeric_errors :
    (∀ (items : List LineItem) (tax_rate : ℚ),
        (∃ it ∈ items, ¬((qtyVal it).isSome ∧ (unitVal it).isSome)) →
        compute_totals items tax_rate = Except.error InvoiceError.nonNumericAmount) ∧
    (∀ a : Value, parseDecimal a = none →
        moneyfmt a = Except.error InvoiceError.invalidAmount) := by
  constructor
  · intro items tax_rate h
    unfold compute_totals
    rw [computeItems_error_of_bad items h]
  · intro a h
    unfold moneyfmt
    rw [h]

/-- Witness for C4: a textual quantity and a textual amount. -/
theorem c4_nonnumeric_errors_witness :
    compute_totals [badItem] 0 = Except.error InvoiceError.nonNumericAmount ∧
      moneyfmt (Value.text "N/A") = Except.error InvoiceError.invalidAmount :=
  ⟨c4_nonnumeric_errors.1 [badItem] 0
      ⟨badItem, List.mem_singleton_self badItem, by decide⟩,
   c4_nonnumeric_errors.2 (Value.text "N/A") rfl⟩

/-- C5: the three aggregates satisfy `total = subtotal + tax` exactly and
`tax = round(subtotal * taxRate, 2, half-up)` exactly; the final rounding
of `subtotal + tax` is an identity because both operands are already at
2-decimal precision. -/
theorem c5_total_identity (items : List LineItem) (tax_rate : ℚ)
    (items2 : List LineItem) (s t tot : ℚ)
    (h : compute_totals items tax_rate = Except.ok (items2, s, t, tot)) :
    tot = s + t ∧ t = quantize2 (s * tax_rate) := by
  obtain ⟨-, hs, ht, htot⟩ := compute_totals_ok_inv items tax_rate items2 s t tot h
  subst hs
  subst ht
  subst htot
  refine ⟨?_, rfl⟩
  exact quantize2_add_quantize2 ((items.map lineTotalSpec).sum)
    (subtotalSpec items * tax_rate)

/-- Witness for C5 at a one-item invoice with a 13% tax rate. -/
theorem c5_total_identity_witness :
    totalSpec w5items (13/100) = subtotalSpec w5items + taxSpec w5items (13/100) ∧
      taxSpec w5items (13/100) = quantize2 (subtotalSpec w5items * (13/100)) :=
  c5_total_identity w5items (13/100) (w5items.map attachLine)
    (subtotalSpec w5items) (taxSpec w5items (13/100)) (totalSpec w5items (13/100))
    (compute_totals_ok_of_parses w5items (13/100) (by decide))

/-- C7: rounding is half-up (ties away from zero) at two decimals: the
single item qty 3, unit price 10.005 yields line total 30.02 (30.015
rounds up), and in general a positive tie `(2m+1)/200` rounds to
`(m+1)/100` while its negation rounds to `-(m+1)/100`. -/
theorem c7_half_up_rounding :
    compute_totals [itemC7] 0 =
      Except.ok ([{ itemC7 with line_total := some (3002/100) }],
        3002/100, 0, 3002/100) ∧
    ∀ m : ℤ, 0 ≤ m →
      quantize2 (((2 * m + 1 : ℤ) : ℚ) / 200) = ((m + 1 : ℤ) : ℚ) / 100 ∧
      quantize2 (-(((2 * m + 1 : ℤ) : ℚ) / 200)) = -(((m + 1 : ℤ) : ℚ) / 100) := by
  have hline : lineTotalSpec itemC7 = 3002/100 := by
    show quantize2 ((3 : ℚ) * (10005/1000)) = 3002/100
    rw [show (3002 : ℚ)/100 = ((3002 : ℤ) : ℚ)/100 by norm_num]
    exact quantize2_eq_of_nonneg _ 3002 (by norm_num) (by norm_num) (by norm_num)
  constructor
  · rw [compute_totals_ok_of_parses [itemC7] 0 (by decide)]
    have hsub : subtotalSpec [itemC7] = 3002/100 := by
      unfold subtotalSpec
      rw [List.map_singleton, List.sum_singleton, hline,
        show (3002 : ℚ)/100 = ((3002 : ℤ) : ℚ)/100 by norm_num]
      exact quantize2_cents 3002
    have htax : taxSpec [itemC7] 0 = 0 := by
      unfold taxSpec
      rw [mul_zero, quantize2_zero]
    have htot : totalSpec [itemC7] 0 = 3002/100 := by
      unfold totalSpec
      rw [htax, add_zero, hsub,
        show (3002 : ℚ)/100 = ((3002 : ℤ) : ℚ)/100 by norm_num]
      exact quantize2_cents 3002
    rw [hsub, htax, htot]
    simp [attachLine, hline]
  · intro m hm
    have hm2 : (0 : ℚ) ≤ (m : ℚ) := by exact_mod_cast hm
    constructor
    · exact quantize2_eq_of_nonneg _ (m + 1)
        (by push_cast; linarith) (by push_cast; linarith) (by push_cast; linarith)
    · exact quantize2_eq_of_neg _ (m + 1)
        (not_le.mpr (by push_cast; linarith))
        (by push_cast; linarith) (by push_cast; linarith)

/-- Witness for C7's general tie statement at m = 1 (0.015 → 0.02). -/
theorem c7_half_up_rounding_witness :
    quantize2 (((2 * (1 : ℤ) + 1 : ℤ) : ℚ) / 200) = (((1 : ℤ) + 1 : ℤ) : ℚ) / 100 :=
  (c7_half_up_rounding.2 1 (by decide)).1

/-- C8: `compute_totals` preserves the number and order of the items and
changes nothing in an item except attaching the derived line total:
description, quantity and unit price at every position are unchanged.
(The embedding is a pure function of `items` and `tax_rate`, so the
return values depend on nothing else by construction.) -/
theorem c8_items_frame (items : List LineItem) (tax_rate : ℚ)
    (items2 : List LineItem) (s t tot : ℚ)
    (h : compute_totals items tax_rate = Except.ok (items2, s, t, tot)) :
    items2.length = items.length ∧
      ∀ (i : ℕ) (hi : i < items.length) (hi2 : i < items2.length),
        (items2.get ⟨i, hi2⟩).description = (items.get ⟨i, hi⟩).description ∧
        (items2.get ⟨i, hi2⟩).qty = (items.get ⟨i, hi⟩).qty ∧
        (items2.get ⟨i, hi2⟩).unit_price = (items.get ⟨i, hi⟩).unit_price ∧
        (items2.get ⟨i, hi2⟩).line_total = some (lineTotalSpec (items.get ⟨i, hi⟩)) := by
  obtain ⟨hitems, -, -, -⟩ := compute_totals_ok_inv items tax_rate items2 s t tot h
  subst hitems
  refine ⟨List.length_map items attachLine, ?_⟩
  intro i hi hi2
  have hget : (items.map attachLine).get ⟨i, hi2⟩ = attachLine (items.get ⟨i, hi⟩) := by
    simp [List.get_eq_getElem, List.getElem_map]
  rw [hget]
  exact ⟨rfl, rfl, rfl, rfl⟩

/-- Witness for C8 at the demo fixture: same length, and the first item's
input fields survive untouched. -/
theorem c8_items_frame_witness :
    (demoItems.map attachLine).length = demoItems.length ∧
      ((demoItems.map attachLine).get ⟨0, by simp [demoItems]⟩).description =
        (demoItems.get ⟨0, by simp [demoItems]⟩).description :=
  ⟨(c8_items_frame demoItems 0 (demoItems.map attachLine) (subtotalSpec demoItems)
      (taxSpec demoItems 0) (totalSpec demoItems 0)
      (compute_totals_ok_of_parses demoItems 0 (by decide))).1,
   ((c8_items_frame demoItems 0 (demoItems.map attachLine) (subtotalSpec demoItems)
      (taxSpec demoItems 0) (totalSpec demoItems 0)
      (compute_totals_ok_of_parses demoItems 0 (by decide))).2 0
      (by simp [demoItems]) (by simp [demoItems])).1⟩

/-- C10: whenever the pipeline of `generate_invoice` reaches the renderer,
every computed item carries a `_line_total`, so the renderer's fallback
branch (recomputing a missing line total as the unrounded product) is
unreachable: the selection function always returns the cached value. -/
theorem c10_fallback_unreachable (r : InvoiceRecord)
    (items2 : List LineItem) (s t tot : ℚ)
    (h : generate_invoice r = Except.ok (items2, s, t, tot)) :
    ∀ it ∈ items2, it.line_total.isSome ∧ renderLineTotal it = it.line_total := by
  unfold generate_invoice at h
  split at h
  · exact absurd h (by simp)
  · split at h
    · split at h
      · exact line_totals_present _ _ _ _ _ _ h
      · exact absurd h (by simp)
    · exact absurd h (by simp)

/-- Witness for C10 at a one-item record flowing through
`generate_invoice`. -/
theorem c10_fallback_unreachable_witness :
    (attachLine w10item).line_total.isSome ∧
      renderLineTotal (attachLine w10item) = (attachLine w10item).line_total :=
  c10_fallback_unreachable w10record (w10items.map attachLine)
    (subtotalSpec w10items) (taxSpec w10items 0) (totalSpec w10items 0)
    (compute_totals_ok_of_parses w10items 0 (by decide))
    (attachLine w10item) (List.mem_map_of_mem attachLine (List.mem_singleton_self w10item))

/-! Validator fixtures. -/

def recC2 : InvoiceRecord :=
  ⟨some (Value.text "INV-2"), none, some Value.record,
   some (ItemsValue.pylist []), none, none, none⟩

def recC3 : InvoiceRecord :=
  ⟨some (Value.text "INV-3"), some (Value.text "2025-03-01"), some Value.record,
   some (ItemsValue.pytuple []), none, none, none⟩

def recC3b : InvoiceRecord :=
  ⟨some (Value.text "INV-3b"), some (Value.text "2025-03-02"), some Value.record,
   some ItemsValue.other, none, none, none⟩

def recC6 : InvoiceRecord :=
  ⟨some (Value.text "INV-6"), some (Value.text "2025-06-01"), some Value.record,
   some (ItemsValue.pylist []), some (Value.num 0), none,
   some (Value.text "note kept")⟩

def recC9 : InvoiceRecord := ⟨none, none, none, none, none, none, none⟩

/-- C2: `validate_invoice_data` raises `missingField` naming the first
absent key among the required top-level fields, in the fixed check order
invoice number, date, bill-to, items, and does so before any
normalization: the record comes back exactly as it went in. -/
theorem c2_first_missing_field (r : InvoiceRecord) :
    (r.invoice_number = none →
      validate_invoice_data r = (r, some (InvoiceError.missingField "invoice_number"))) ∧
    (r.invoice_number.isSome → r.date = none →
      validate_invoice_data r = (r, some (InvoiceError.missingField "date"))) ∧
    (r.invoice_number.isSome → r.date.isSome → r.bill_to = none →
      validate_invoice_data r = (r, some (InvoiceError.missingField "bill_to"))) ∧
    (r.invoice_number.isSome → r.date.isSome → r.bill_to.isSome → r.items = none →
      validate_invoice_data r = (r, some (InvoiceError.missingField "items"))) := by
  refine ⟨?_, ?_, ?_, ?_⟩
  · intro h1
    simp [validate_invoice_data, firstMissing, requiredFields, List.find?, h1]
  · intro h1 h2
    simp [validate_invoice_data, firstMissing, requiredFields, List.find?, h1, h2]
  · intro h1 h2 h3
    simp [validate_invoice_data, firstMissing, requiredFields, List.find?, h1, h2, h3]
  · intro h1 h2 h3 h4
    simp [validate_invoice_data, firstMissing, requiredFields, List.find?, h1, h2, h3, h4]

/-- Witness for C2: invoice number present, date absent — `date` is the
field named. -/
theorem c2_first_missing_field_witness :
    validate_invoice_data recC2 = (recC2, some (InvoiceError.missingField "date")) :=
  (c2_first_missing_field recC2).2.1 rfl rfl

/-- C3 counterexample: a record whose `items` is a tuple — a sequence
type in the spec's sense — still fails the source's
`isinstance(data['items'], list)` check, so the claim that any sequence
passes is false. -/
theorem c3_sequence_counterexample :
    ItemsValue.isSequence (ItemsValue.pytuple []) = true ∧
      validate_invoice_data recC3 = (recC3, some InvoiceError.typeMismatch) :=
  ⟨rfl, rfl⟩

/-- C3 (amended): for a record with all required fields present,
`validate_invoice_data` raises `typeMismatch` if and only if `items` is
not a Python `list`; non-list sequences such as tuples also trigger the
error. -/
theorem c3_items_must_be_list (r : InvoiceRecord) (iv : ItemsValue)
    (h1 : r.invoice_number.isSome) (h2 : r.date.isSome) (h3 : r.bill_to.isSome)
    (h4 : r.items = some iv) :
    (validate_invoice_data r).2 = some InvoiceError.typeMismatch ↔
      iv.isList = false := by
  have hf : firstMissing r = none := by
    simp [firstMissing, requiredFields, List.find?, h1, h2, h3, h4]
  by_cases hc : iv.isList
  · simp [validate_invoice_data, hf, h4, hc]
  · simp [validate_invoice_data, hf, h4, hc]

/-- Witness for the amended C3: `items` holding a single record (a
non-sequence) triggers the error. -/
theorem c3_items_must_be_list_witness :
    (validate_invoice_data recC3b).2 = some InvoiceError.typeMismatch :=
  (c3_items_must_be_list recC3b ItemsValue.other rfl rfl rfl rfl).mpr rfl

/-- C6: on success, `validate_invoice_data` fills the defaults
`tax_rate = 0.0`, `due_date = None`, `notes = ""` only for absent keys,
leaves every other field untouched, and never overwrites a present value
— even a falsy one such as an explicit tax rate of 0.  (Reference
identity of the in-place mutation is modelled by returning the mutated
record itself.) -/
theorem c6_defaults_no_overwrite (r : InvoiceRecord)
    (h : (validate_invoice_data r).2 = none) :
    (validate_invoice_data r).1.tax_rate = some (r.tax_rate.getD (Value.num 0)) ∧
    (validate_invoice_data r).1.due_date = some (r.due_date.getD Value.pynone) ∧
    (validate_invoice_data r).1.notes = some (r.notes.getD (Value.text "")) ∧
    (validate_invoice_data r).1.invoice_number = r.invoice_number ∧
    (validate_invoice_data r).1.date = r.date ∧
    (validate_invoice_data r).1.bill_to = r.bill_to ∧
    (validate_invoice_data r).1.items = r.items ∧
    (∀ v, r.tax_rate = some v → (validate_invoice_data r).1.tax_rate = some v) ∧
    (∀ v, r.due_date = some v → (validate_invoice_data r).1.due_date = some v) ∧
    (∀ v, r.notes = some v → (validate_invoice_data r).1.notes = some v) := by
  have hval : (validate_invoice_data r).1 = applyDefaults r := by
    rcases hf : firstMissing r with _ | k
    · by_cases hc : (r.items.getD ItemsValue.other).isList
      · simp [validate_invoice_data, hf, hc]
      · simp [validate_invoice_data, hf, hc] at h
    · simp [validate_invoice_data, hf] at h
  rw [hval]
  refine ⟨rfl, rfl, rfl, rfl, rfl, rfl, rfl, ?_, ?_, ?_⟩
  · intro v hv
    simp [applyDefaults, hv]
  · intro v hv
    simp [applyDefaults, hv]
  · intro v hv
    simp [applyDefaults, hv]

/-- Witness for C6: a record carrying an explicit tax rate of 0 keeps it. -/
theorem c6_defaults_no_overwrite_witness :
    (validate_invoice_data recC6).1.tax_rate = some (recC6.tax_rate.getD (Value.num 0)) ∧
      (validate_invoice_data recC6).1.tax_rate = some (Value.num 0) :=
  ⟨(c6_defaults_no_overwrite recC6 rfl).1,
   (c6_defaults_no_overwrite recC6 rfl).2.2.2.2.2.2.2.1 (Value.num 0) rfl⟩

/-- C9: validation is atomic on failure — whenever
`validate_invoice_data` raises, the record it hands back is exactly the
input, with no default inserted, because all checks precede all
normalization. -/
theorem c9_validate_atomic (r : InvoiceRecord) (e : InvoiceError)
    (h : (validate_invoice_data r).2 = some e) :
    (validate_invoice_data r).1 = r := by
  rcases hf : firstMissing r with _ | k
  · by_cases hc : (r.items.getD ItemsValue.other).isList
    · simp [validate_invoice_data, hf, hc] at h
    · simp [validate_invoice_data, hf, hc]
  · simp [validate_invoice_data, hf]

/-- Witness for C9: the empty record fails and is returned unchanged. -/
theorem c9_validate_atomic_witness :
    (validate_invoice_data recC9).1 = recC9 :=
  c9_validate_atomic recC9 (InvoiceError.missingField "invoice_number") rfl

end InvoiceGen
